import Mathlib

/-!
Verification of the GPS-tracker firmware configuration headers
(`firmware/config.h` and `firmware/esp32_config_example.h`) and of the
telemetry control loop those headers parameterize.

The repository ships only the two configuration headers.  The control-loop
components (Offline Buffer, Movement Classifier, Transport Arbiter,
Reporting Scheduler) are described by the design document but their code is
not present; definitions for them below are marked `Modelled from the
spec:` and follow the design document's wording.  Everything else is
transcribed directly from the headers.
-/

-- ===========================================================================
-- Operational parameters, transcribed from the two header variants
-- ===========================================================================

/-- The "OPERATIONAL PARAMETERS" and "FEATURE FLAGS" sections of a
configuration header, plus `MQTT_PORT`: every compile-time constant that
parameterizes the control loop.  The movement threshold is `10.0` meters in
the source; it is represented exactly as a rational. -/
structure OperationalParams where
  moving_interval_ms : Nat
  idle_interval_ms : Nat
  heartbeat_interval_ms : Nat
  reconnect_delay_ms : Nat
  gps_baud_rate : Nat
  gps_timeout_ms : Nat
  movement_threshold_m : ℚ
  wifi_timeout_ms : Nat
  http_timeout_ms : Nat
  at_command_timeout_ms : Nat
  max_offline_records : Nat
  offline_buffer_size : Nat
  mqtt_port : Nat
  enable_wifi_fallback : Bool
  enable_lte_fallback : Bool
  enable_neo6m_fallback : Bool
  enable_offline_storage : Bool
  enable_heartbeat : Bool
  enable_movement_detection : Bool
deriving DecidableEq

/-- Values of `firmware/config.h` (lines 64-81, 23, 141-146). -/
def configHParams : OperationalParams where
  moving_interval_ms := 15000
  idle_interval_ms := 60000
  heartbeat_interval_ms := 60000
  reconnect_delay_ms := 10000
  gps_baud_rate := 9600
  gps_timeout_ms := 30000
  movement_threshold_m := 10
  wifi_timeout_ms := 20000
  http_timeout_ms := 15000
  at_command_timeout_ms := 5000
  max_offline_records := 50
  offline_buffer_size := 8192
  mqtt_port := 1883
  enable_wifi_fallback := true
  enable_lte_fallback := true
  enable_neo6m_fallback := true
  enable_offline_storage := true
  enable_heartbeat := true
  enable_movement_detection := true

/-- Values of `firmware/esp32_config_example.h` (lines 66-83, 23, 128-133). -/
def esp32ExampleParams : OperationalParams where
  moving_interval_ms := 15000
  idle_interval_ms := 60000
  heartbeat_interval_ms := 60000
  reconnect_delay_ms := 10000
  gps_baud_rate := 9600
  gps_timeout_ms := 30000
  movement_threshold_m := 10
  wifi_timeout_ms := 20000
  http_timeout_ms := 15000
  at_command_timeout_ms := 5000
  max_offline_records := 50
  offline_buffer_size := 8192
  mqtt_port := 1883
  enable_wifi_fallback := true
  enable_lte_fallback := true
  enable_neo6m_fallback := true
  enable_offline_storage := true
  enable_heartbeat := true
  enable_movement_detection := true

/-- `MOVING_INTERVAL_MS` (config.h line 64). -/
def MOVING_INTERVAL_MS : Nat := 15000

/-- `IDLE_INTERVAL_MS` (config.h line 65). -/
def IDLE_INTERVAL_MS : Nat := 60000

/-- `HEARTBEAT_INTERVAL_MS` (config.h line 66). -/
def HEARTBEAT_INTERVAL_MS : Nat := 60000

/-- `RECONNECT_DELAY_MS` (config.h line 67). -/
def RECONNECT_DELAY_MS : Nat := 10000

/-- `MOVEMENT_THRESHOLD_M` (config.h line 72, `10.0` meters, exact). -/
def MOVEMENT_THRESHOLD_M : ℚ := 10

/-- `MAX_OFFLINE_RECORDS` (config.h line 80). -/
def MAX_OFFLINE_RECORDS : Nat := 50

-- ===========================================================================
-- The build-time validation block of config.h (lines 152-186)
-- ===========================================================================

/-- The string-valued configuration macros of `config.h` (lines 14-29, 88).
Each field holds the string literal the corresponding `#define` carries. -/
structure FirmwareConfig where
  wifi_ssid : String
  wifi_pass : String
  server_host : String
  public_origin : String
  mqtt_broker_host : String
  mqtt_username : String
  mqtt_password : String
  device_id : String
  device_token : String
  apn : String
deriving DecidableEq

/-- One `#if MACRO == "<PLACEHOLDER>" / #error` check of the validation
block: the macro's name, the value its `#define` expands to, and the
placeholder literal it is compared against. -/
structure ValidationCheck where
  macroName : String
  value : String
  placeholder : String
deriving DecidableEq

/-- The validation block of config.h lines 152-186, in source order: five
unconditional checks (WIFI_SSID, SERVER_HOST, DEVICE_ID, DEVICE_TOKEN, APN)
and, when `ESP32` is defined, three more (MQTT_BROKER_HOST, MQTT_USERNAME,
MQTT_PASSWORD). -/
def validationChecks (esp32 : Bool) (c : FirmwareConfig) : List ValidationCheck :=
  [ValidationCheck.mk "WIFI_SSID" c.wifi_ssid "<WIFI_SSID>",
   ValidationCheck.mk "SERVER_HOST" c.server_host "<SERVER_HOST>",
   ValidationCheck.mk "DEVICE_ID" c.device_id "<DEVICE_ID>",
   ValidationCheck.mk "DEVICE_TOKEN" c.device_token "<DEVICE_TOKEN>",
   ValidationCheck.mk "APN" c.apn "<APN>"] ++
  (if esp32 then
    [ValidationCheck.mk "MQTT_BROKER_HOST" c.mqtt_broker_host "<MQTT_BROKER_HOST>",
     ValidationCheck.mk "MQTT_USERNAME" c.mqtt_username "<MQTT_USERNAME>",
     ValidationCheck.mk "MQTT_PASSWORD" c.mqtt_password "<MQTT_PASSWORD>"]
   else [])

/-- The macro names the validation block checks (independent of the
configured values). -/
def checkedMacros (esp32 : Bool) : List String :=
  ["WIFI_SSID", "SERVER_HOST", "DEVICE_ID", "DEVICE_TOKEN", "APN"] ++
  (if esp32 then ["MQTT_BROKER_HOST", "MQTT_USERNAME", "MQTT_PASSWORD"] else [])

/-- A token of a `#if` controlling expression after macro expansion; only
the kinds occurring in the validation block are represented. -/
inductive PPToken where
  | strLit (s : String)
  | eqeq
deriving DecidableEq

/-- The token sequence the preprocessor sees for one check's `#if` line
after expanding the macro: `"value" == "<PLACEHOLDER>"`. -/
def checkTokens (chk : ValidationCheck) : List PPToken :=
  [PPToken.strLit chk.value, PPToken.eqeq, PPToken.strLit chk.placeholder]

/-- ISO C (C11 6.10.1p1) requires the controlling expression of `#if` to be
an integer constant expression after macro expansion; a string-literal
token is not permitted there, so a conforming preprocessor rejects any
directive whose expanded expression contains one. -/
def ppControllingExprOk (ts : List PPToken) : Bool :=
  ts.all fun t =>
    match t with
    | PPToken.strLit _ => false
    | PPToken.eqeq => true

/-- Outcome of preprocessing the validation block: success, rejection of a
`#if` whose controlling expression is not an integer constant expression,
or a fired `#error` naming the unset macro. -/
inductive BuildResult where
  | ok
  | invalidDirective (macroName : String)
  | configError (macroName : String)
deriving DecidableEq

/-- Processes the checks in source order exactly as a conforming C
preprocessor does: a check whose controlling expression is invalid stops
the build with a diagnostic; a valid check that holds fires its `#error`;
otherwise preprocessing continues. -/
def runChecks : List ValidationCheck → BuildResult
  | [] => BuildResult.ok
  | chk :: rest =>
    if ppControllingExprOk (checkTokens chk) then
      if chk.value = chk.placeholder then BuildResult.configError chk.macroName
      else runChecks rest
    else BuildResult.invalidDirective chk.macroName

/-- The build-time validation of config.h under conforming C preprocessor
semantics. -/
def runValidation (esp32 : Bool) (c : FirmwareConfig) : BuildResult :=
  runChecks (validationChecks esp32 c)

/-- The validation block under the author's intended reading of
`#if MACRO == "<PLACEHOLDER>"` as string comparison: the first check whose
macro still equals its placeholder fires its `#error`; if none does, the
build proceeds. -/
def intendedChecks : List ValidationCheck → BuildResult
  | [] => BuildResult.ok
  | chk :: rest =>
    if chk.value = chk.placeholder then BuildResult.configError chk.macroName
    else intendedChecks rest

/-- The build-time validation of config.h under the intended string-equality
reading of the checks. -/
def intendedValidation (esp32 : Bool) (c : FirmwareConfig) : BuildResult :=
  intendedChecks (validationChecks esp32 c)

/-- `config.h` exactly as shipped: every string macro still at its
placeholder (lines 14-29, 88). -/
def placeholderConfig : FirmwareConfig where
  wifi_ssid := "<WIFI_SSID>"
  wifi_pass := "<WIFI_PASS>"
  server_host := "<SERVER_HOST>"
  public_origin := "<PUBLIC_ORIGIN>"
  mqtt_broker_host := "<MQTT_BROKER_HOST>"
  mqtt_username := "<MQTT_USERNAME>"
  mqtt_password := "<MQTT_PASSWORD>"
  device_id := "<DEVICE_ID>"
  device_token := "<DEVICE_TOKEN>"
  apn := "<APN>"

/-- A fully filled-in configuration: every placeholder replaced, using the
values of `firmware/esp32_config_example.h` (lines 14-29, 52). -/
def exampleConfig : FirmwareConfig where
  wifi_ssid := "YourWiFiNetwork"
  wifi_pass := "YourWiFiPassword"
  server_host := "your-server.com"
  public_origin := "http://your-server.com"
  mqtt_broker_host := "your-mqtt-broker.com"
  mqtt_username := "mqtt_user"
  mqtt_password := "mqtt_password"
  device_id := "ESP32_TRACKER_001"
  device_token := "test_token_123"
  apn := "internet"

/-- The example configuration with `WIFI_PASS` and `PUBLIC_ORIGIN` left at
their placeholders and every other string macro filled in. -/
def unsetPassOriginConfig : FirmwareConfig where
  wifi_ssid := "YourWiFiNetwork"
  wifi_pass := "<WIFI_PASS>"
  server_host := "your-server.com"
  public_origin := "<PUBLIC_ORIGIN>"
  mqtt_broker_host := "your-mqtt-broker.com"
  mqtt_username := "mqtt_user"
  mqtt_password := "mqtt_password"
  device_id := "ESP32_TRACKER_001"
  device_token := "test_token_123"
  apn := "internet"

-- ===========================================================================
-- Offline Buffer (spec 3 OfflineBuffer, 4.4)
-- ===========================================================================

/-- Modelled from the spec: the Offline Buffer component (spec 4.4) is not
in the source, which ships only configuration headers.  An ordered,
capacity-bounded sequence of telemetry records, insertion order = send
order (FIFO, head = oldest); capacity is `MAX_OFFLINE_RECORDS` in the
default configuration. -/
structure OfflineBuffer (A : Type) where
  records : List A
  capacity : Nat
deriving DecidableEq

/-- Modelled from the spec: `offer(record)` appends if capacity allows;
otherwise evicts the oldest record and appends the new one, returning an
indication that a record was dropped (spec 4.4). -/
def OfflineBuffer.offer {A : Type} (b : OfflineBuffer A) (r : A) :
    OfflineBuffer A × Bool :=
  if b.records.length < b.capacity then
    (OfflineBuffer.mk (b.records ++ [r]) b.capacity, false)
  else
    (OfflineBuffer.mk (b.records.tail ++ [r]) b.capacity, true)

/-- Modelled from the spec: `drain()` produces the buffered records in FIFO
order without removing them until each is individually acknowledged sent
(spec 4.4). -/
def OfflineBuffer.drain {A : Type} (b : OfflineBuffer A) : List A :=
  b.records

/-- Modelled from the spec: a record is removed only after the Transport
Arbiter confirms delivery (spec 4.4); on confirmation the oldest (head)
record is removed, otherwise the buffer is unchanged. -/
def OfflineBuffer.ackHead {A : Type} (b : OfflineBuffer A) (confirmed : Bool) :
    OfflineBuffer A :=
  if confirmed then OfflineBuffer.mk b.records.tail b.capacity else b

/-- An operation the control loop performs on the Offline Buffer: offering
a record, or acknowledging (or failing to acknowledge) delivery of the
oldest record during a drain. -/
inductive BufOp (A : Type) where
  | offer (r : A)
  | ackHead (confirmed : Bool)
deriving DecidableEq

/-- One buffer operation. -/
def OfflineBuffer.step {A : Type} (b : OfflineBuffer A) : BufOp A → OfflineBuffer A
  | BufOp.offer r => (b.offer r).1
  | BufOp.ackHead c => b.ackHead c

/-- A whole sequence of buffer operations, oldest first. -/
def OfflineBuffer.runOps {A : Type} (b : OfflineBuffer A) (ops : List (BufOp A)) :
    OfflineBuffer A :=
  ops.foldl OfflineBuffer.step b

/-- An empty buffer of the given capacity. -/
def emptyBuffer (A : Type) (cap : Nat) : OfflineBuffer A :=
  OfflineBuffer.mk [] cap

-- ===========================================================================
-- Movement Classifier (spec 4.2)
-- ===========================================================================

/-- Movement classification result (spec 4.2). -/
inductive Movement where
  | moving
  | idle
deriving DecidableEq

/-- Modelled from the spec: the Movement Classifier (spec 4.2) is not in
the source.  `classify` receives the great-circle distance in meters
between the previous and the current fix (already computed) and yields
`Moving` if it is at least `MOVEMENT_THRESHOLD_M`, else `Idle`. -/
def classify (distance : ℚ) : Movement :=
  if MOVEMENT_THRESHOLD_M ≤ distance then Movement.moving else Movement.idle

/-- Modelled from the spec: on `Moving` the Reporting Scheduler's sampling
interval is set to the short (moving) interval, on `Idle` to the long
(idle) interval (spec 4.2). -/
def intervalFor : Movement → Nat
  | Movement.moving => MOVING_INTERVAL_MS
  | Movement.idle => IDLE_INTERVAL_MS

-- ===========================================================================
-- Reconnection scheduling (spec 4.3, 4.5)
-- ===========================================================================

/-- Modelled from the spec: the Reporting Scheduler's reconnection state
(spec 4.5) is not in the source.  It holds only the time of the last
reconnection attempt (`none` before the first attempt). -/
structure ReconnectState where
  lastAttempt : Option Nat
deriving DecidableEq

/-- Modelled from the spec: one scheduler tick's reconnection decision
(spec 4.5 decision table, 4.3): when the transport is disconnected, attempt
reconnect no more often than `RECONNECT_DELAY_MS`; returns the new state and
whether an attempt was made at this tick. -/
def reconnectTick (s : ReconnectState) (connected : Bool) (now : Nat) :
    ReconnectState × Bool :=
  if connected then (s, false)
  else
    match s.lastAttempt with
    | none => (ReconnectState.mk (some now), true)
    | some t =>
      if t + RECONNECT_DELAY_MS ≤ now then (ReconnectState.mk (some now), true)
      else (s, false)

/-- The times at which reconnection attempts happen over a run of ticks,
each tick given as (transport connected?, current millis). -/
def attemptTimes (s : ReconnectState) : List (Bool × Nat) → List Nat
  | [] => []
  | tick :: rest =>
    if (reconnectTick s tick.1 tick.2).2 then
      tick.2 :: attemptTimes (reconnectTick s tick.1 tick.2).1 rest
    else
      attemptTimes (reconnectTick s tick.1 tick.2).1 rest

-- ===========================================================================
-- Heartbeat scheduling (spec 4.5)
-- ===========================================================================

/-- Modelled from the spec: the Reporting Scheduler's heartbeat state
(spec 4.5) is not in the source.  It holds the time of the last heartbeat,
initialized to loop start, so the first heartbeat is measured from loop
start. -/
structure HeartbeatState where
  lastHeartbeat : Nat
deriving DecidableEq

/-- Modelled from the spec: one scheduler tick's heartbeat decision
(spec 4.5 decision table): a heartbeat record is sent when heartbeats are
enabled and the heartbeat interval has elapsed since the last heartbeat (or
loop start); returns the new state and whether a heartbeat was emitted. -/
def heartbeatTick (enabled : Bool) (s : HeartbeatState) (now : Nat) :
    HeartbeatState × Bool :=
  if enabled = true ∧ s.lastHeartbeat + HEARTBEAT_INTERVAL_MS ≤ now then
    (HeartbeatState.mk now, true)
  else (s, false)

/-- The times at which heartbeats are emitted over a run of ticks. -/
def heartbeatTimes (enabled : Bool) (s : HeartbeatState) : List Nat → List Nat
  | [] => []
  | now :: rest =>
    if (heartbeatTick enabled s now).2 then
      now :: heartbeatTimes enabled (heartbeatTick enabled s now).1 rest
    else
      heartbeatTimes enabled (heartbeatTick enabled s now).1 rest

-- ===========================================================================
-- Transport Arbiter bearer selection (spec 4.3)
-- ===========================================================================

/-- A network bearer: the configured primary, or the secondary used when
fallback is enabled (spec 4.3). -/
inductive Bearer where
  | primary
  | fallback
deriving DecidableEq

/-- Modelled from the spec: the Transport Arbiter (spec 4.3) is not in the
source.  Its bearer-selection state is the count of consecutive send
failures on the current policy. -/
structure ArbiterState where
  consecutiveFailures : Nat
deriving DecidableEq

/-- Modelled from the spec: the scenario of spec 8 fixes the policy
"repeatedly failing" at 3 consecutive send failures, after which, with
fallback enabled, the arbiter switches to the fallback bearer. -/
def FALLBACK_AFTER_FAILURES : Nat := 3

/-- Modelled from the spec: bearer selection (spec 4.3): prefer the
configured primary bearer; if it is repeatedly failing (3 consecutive
failures) and fallback is enabled, use the fallback bearer. -/
def chooseBearer (fallbackEnabled : Bool) (s : ArbiterState) : Bearer :=
  if fallbackEnabled = true ∧ FALLBACK_AFTER_FAILURES ≤ s.consecutiveFailures then
    Bearer.fallback
  else Bearer.primary

/-- What one `send(record)` call did: the bearer it used, whether delivery
succeeded, and how many transmission attempts the call performed. -/
structure SendResult where
  bearerUsed : Bearer
  delivered : Bool
  transmissions : Nat
deriving DecidableEq

/-- Modelled from the spec: `send(record) → Ack | Failure` (spec 4.3).  A
send is attempted at most once per call: exactly one transmission on the
selected bearer, whose success is the environment-supplied `outcome`.  On
success the consecutive-failure count resets; on failure it increments. -/
def send (fallbackEnabled : Bool) (s : ArbiterState) (outcome : Bool) :
    ArbiterState × SendResult :=
  let b := chooseBearer fallbackEnabled s
  if outcome then (ArbiterState.mk 0, SendResult.mk b true 1)
  else (ArbiterState.mk (s.consecutiveFailures + 1), SendResult.mk b false 1)

/-- The arbiter state after a sequence of send calls with the given
environment outcomes. -/
def runSends (fallbackEnabled : Bool) (s : ArbiterState) : List Bool → ArbiterState
  | [] => s
  | o :: rest => runSends fallbackEnabled (send fallbackEnabled s o).1 rest

/-- The bearers used by a sequence of send calls with the given outcomes. -/
def sendBearers (fallbackEnabled : Bool) (s : ArbiterState) : List Bool → List Bearer
  | [] => []
  | o :: rest =>
    (send fallbackEnabled s o).2.bearerUsed ::
      sendBearers fallbackEnabled (send fallbackEnabled s o).1 rest

-- ===========================================================================
-- Helper lemmas
-- ===========================================================================

/-- A buffer operation never changes the configured capacity. -/
theorem OfflineBuffer.step_capacity {A : Type} (b : OfflineBuffer A) (op : BufOp A) :
    (b.step op).capacity = b.capacity := by
  cases op with
  | offer r =>
    simp only [OfflineBuffer.step, OfflineBuffer.offer]
    split <;> rfl
  | ackHead c =>
    simp only [OfflineBuffer.step, OfflineBuffer.ackHead]
    split <;> rfl

/-- A single buffer operation preserves the size bound when the capacity is
at least one. -/
theorem OfflineBuffer.step_length_le {A : Type} (b : OfflineBuffer A) (op : BufOp A)
    (hc : 1 ≤ b.capacity) (h : b.records.length ≤ b.capacity) :
    (b.step op).records.length ≤ b.capacity := by
  cases op with
  | offer r =>
    simp only [OfflineBuffer.step, OfflineBuffer.offer]
    split
    · next hlt =>
      simp only [List.length_append, List.length_singleton]
      omega
    · next hge =>
      simp only [List.length_append, List.length_singleton, List.length_tail]
      omega
  | ackHead c =>
    simp only [OfflineBuffer.step, OfflineBuffer.ackHead]
    split
    · simp only [List.length_tail]
      omega
    · exact h

/-- Any sequence of buffer operations preserves the capacity and the size
bound when the capacity is at least one. -/
theorem OfflineBuffer.runOps_length_le {A : Type} (ops : List (BufOp A))
    (b : OfflineBuffer A) (hc : 1 ≤ b.capacity) (h : b.records.length ≤ b.capacity) :
    (b.runOps ops).capacity = b.capacity ∧
    (b.runOps ops).records.length ≤ b.capacity := by
  induction ops generalizing b with
  | nil => exact ⟨rfl, h⟩
  | cons op rest ih =>
    have hcap := OfflineBuffer.step_capacity b op
    have h1 : 1 ≤ (b.step op).capacity := by rw [hcap]; exact hc
    have h2 : (b.step op).records.length ≤ (b.step op).capacity := by
      rw [hcap]; exact OfflineBuffer.step_length_le b op hc h
    have h3 := ih (b.step op) h1 h2
    have hrun : b.runOps (op :: rest) = (b.step op).runOps rest := rfl
    constructor
    · rw [hrun, h3.1, hcap]
    · have := h3.2
      rw [hcap] at this
      rw [hrun]
      exact this

/-- A record absent from the buffer stays absent under any sequence of
operations that never offers it. -/
theorem OfflineBuffer.not_mem_runOps {A : Type} (ops : List (BufOp A))
    (b : OfflineBuffer A) (r : A) (h : r ∉ b.records)
    (hops : BufOp.offer r ∉ ops) :
    r ∉ (b.runOps ops).records := by
  induction ops generalizing b with
  | nil => exact h
  | cons op rest ih =>
    have hrest : BufOp.offer r ∉ rest := by
      intro hm
      exact hops (List.mem_cons_of_mem _ hm)
    have hstep : r ∉ (b.step op).records := by
      cases op with
      | offer q =>
        have hqr : q ≠ r := by
          intro he
          exact hops (by rw [he]; exact List.mem_cons_self _ _)
        simp only [OfflineBuffer.step, OfflineBuffer.offer]
        split
        · show r ∉ b.records ++ [q]
          intro hm
          rcases List.mem_append.1 hm with hm1 | hm1
          · exact h hm1
          · rw [List.mem_singleton] at hm1
            exact hqr hm1.symm
        · show r ∉ b.records.tail ++ [q]
          intro hm
          rcases List.mem_append.1 hm with hm1 | hm1
          · exact h (List.mem_of_mem_tail hm1)
          · rw [List.mem_singleton] at hm1
            exact hqr hm1.symm
      | ackHead c =>
        simp only [OfflineBuffer.step, OfflineBuffer.ackHead]
        split
        · show r ∉ b.records.tail
          intro hm
          exact h (List.mem_of_mem_tail hm)
        · exact h
    exact ih (b.step op) hstep hrest

/-- `classify` yields `Moving` exactly when the distance reaches the
movement threshold. -/
theorem classify_eq_moving_iff (d : ℚ) :
    classify d = Movement.moving ↔ MOVEMENT_THRESHOLD_M ≤ d := by
  unfold classify
  split
  · next h => simp [h]
  · next h => simp [h]

/-- `classify` yields `Idle` exactly when the distance is below the
movement threshold. -/
theorem classify_eq_idle_iff (d : ℚ) :
    classify d = Movement.idle ↔ d < MOVEMENT_THRESHOLD_M := by
  unfold classify
  split
  · next h => simp [h, not_lt.2 h]
  · next h => simp [h, not_le.1 h]

/-- The time of the last reconnection attempt recorded in the state, as a
zero- or one-element prefix of the attempt history. -/
def reconnectSeed (s : ReconnectState) : List Nat :=
  match s.lastAttempt with
  | none => []
  | some t => [t]

/-- The last recorded attempt time followed by all future attempt times is
always spaced by at least `RECONNECT_DELAY_MS`. -/
theorem attemptTimes_chain (ticks : List (Bool × Nat)) (s : ReconnectState) :
    List.Chain' (fun a b => a + RECONNECT_DELAY_MS ≤ b)
      (reconnectSeed s ++ attemptTimes s ticks) := by
  induction ticks generalizing s with
  | nil =>
    cases hl : s.lastAttempt with
    | none => simp [attemptTimes, reconnectSeed, hl]
    | some t => simp [attemptTimes, reconnectSeed, hl]
  | cons tick rest ih =>
    obtain ⟨c, now⟩ := tick
    cases c with
    | true =>
      have ht : reconnectTick s true now = (s, false) := by
        simp [reconnectTick]
      simpa [attemptTimes, ht] using ih s
    | false =>
      cases hl : s.lastAttempt with
      | none =>
        have ht : reconnectTick s false now = (ReconnectState.mk (some now), true) := by
          simp [reconnectTick, hl]
        have h2 := ih (ReconnectState.mk (some now))
        simp only [reconnectSeed] at h2 ⊢
        rw [hl]
        simpa [attemptTimes, ht] using h2
      | some t =>
        by_cases hd : t + RECONNECT_DELAY_MS ≤ now
        · have ht : reconnectTick s false now = (ReconnectState.mk (some now), true) := by
            simp [reconnectTick, hl, hd]
          have h2 := ih (ReconnectState.mk (some now))
          simp only [reconnectSeed] at h2 ⊢
          rw [hl]
          simp only [attemptTimes, ht] at h2 ⊢
          simp only [List.singleton_append] at h2 ⊢
          simp only [if_true]
          exact List.chain'_cons.2 ⟨hd, by simpa using h2⟩
        · have ht : reconnectTick s false now = (s, false) := by
            simp [reconnectTick, hl, hd]
          have h2 := ih s
          simp only [reconnectSeed, hl] at h2 ⊢
          simpa [attemptTimes, ht, reconnectSeed, hl] using h2

-- ===========================================================================
-- Claim theorems
-- ===========================================================================

/-- Claim C1: the spec requires that leaving any required configuration
value at its placeholder fails the build and that replacing all
placeholders lets the build succeed.  The second half fails on the code:
each validation check compares two string literals inside `#if`, which is
not a valid controlling expression for a conforming C preprocessor, so the
build is rejected at the first check even for a fully filled-in
configuration; only under the author's intended string-equality reading
does validation behave as claimed. -/
theorem c1_validation_rejects_every_config :
    runValidation true exampleConfig = BuildResult.invalidDirective "WIFI_SSID" ∧
    runValidation false exampleConfig = BuildResult.invalidDirective "WIFI_SSID" ∧
    runValidation true exampleConfig ≠ BuildResult.ok ∧
    intendedValidation true exampleConfig = BuildResult.ok ∧
    intendedValidation true placeholderConfig = BuildResult.configError "WIFI_SSID" := by
  refine ⟨by decide, by decide, by decide, by decide, by decide⟩

/-- Claim C2: starting from an empty Offline Buffer with the configured
capacity `MAX_OFFLINE_RECORDS` (50), no sequence of offers and
drain-acknowledgements ever makes the buffer hold more than
`MAX_OFFLINE_RECORDS` records. -/
theorem c2_offline_buffer_bounded (ops : List (BufOp Nat)) :
    ((emptyBuffer Nat MAX_OFFLINE_RECORDS).runOps ops).records.length ≤
      MAX_OFFLINE_RECORDS := by
  have h := OfflineBuffer.runOps_length_le ops (emptyBuffer Nat MAX_OFFLINE_RECORDS)
    (by decide) (by decide)
  exact h.2

/-- Claim C3: offering a record to a full Offline Buffer evicts exactly the
oldest record, appends the new one, keeps the count at the cap, reports the
drop, and preserves FIFO order of the survivors, which is what a subsequent
drain yields. -/
theorem c3_offer_at_capacity (b : OfflineBuffer Nat) (r : Nat)
    (hfull : b.records.length = b.capacity) (hc : 1 ≤ b.capacity) :
    (b.offer r).1.records = b.records.tail ++ [r] ∧
    (b.offer r).2 = true ∧
    (b.offer r).1.records.length = b.capacity ∧
    (b.offer r).1.drain = b.records.tail ++ [r] := by
  have hnlt : ¬ b.records.length < b.capacity := by omega
  refine ⟨?_, ?_, ?_, ?_⟩
  · simp [OfflineBuffer.offer, hnlt]
  · simp [OfflineBuffer.offer, hnlt]
  · simp only [OfflineBuffer.offer, if_neg hnlt, List.length_append,
      List.length_singleton, List.length_tail]
    omega
  · simp [OfflineBuffer.offer, OfflineBuffer.drain, hnlt]

/-- Witness for C3, the spec's scenario: with capacity 3, offering
A = 10, B = 20, C = 30, D = 40 while disconnected leaves exactly
[B, C, D] = [20, 30, 40], which drain yields in that order. -/
def buf3 : OfflineBuffer Nat :=
  (emptyBuffer Nat 3).runOps [BufOp.offer 10, BufOp.offer 20, BufOp.offer 30]

/-- Witness for claim C3 at the spec's concrete scenario (capacity 3,
records 10, 20, 30 buffered, 40 offered): drain yields [20, 30, 40]. -/
theorem c3_offer_at_capacity_witness :
    (buf3.records.length = buf3.capacity ∧ 1 ≤ buf3.capacity) ∧
    ((buf3.offer 40).1.records = buf3.records.tail ++ [40] ∧
     (buf3.offer 40).2 = true ∧
     (buf3.offer 40).1.records.length = buf3.capacity ∧
     (buf3.offer 40).1.drain = buf3.records.tail ++ [40]) ∧
    (buf3.offer 40).1.drain = [20, 30, 40] :=
  ⟨⟨by decide, by decide⟩,
   c3_offer_at_capacity buf3 40 (by decide) (by decide),
   by decide⟩

/-- Claim C5: once the oldest record is acknowledged delivered and removed,
no later sequence of buffer operations that does not offer it anew ever
makes drain yield it again (the buffered records being distinct by
sequence number); and a record is removed only after delivery is
confirmed: an unconfirmed acknowledgement leaves the buffer unchanged. -/
theorem c5_acked_record_never_replayed (b : OfflineBuffer Nat) (r : Nat)
    (t : List Nat) (ops : List (BufOp Nat))
    (hrec : b.records = r :: t) (hnd : r ∉ t) (hops : BufOp.offer r ∉ ops) :
    r ∉ ((b.ackHead true).runOps ops).drain ∧
    ∀ (b2 : OfflineBuffer Nat), b2.ackHead false = b2 := by
  constructor
  · apply OfflineBuffer.not_mem_runOps
    · show r ∉ (b.ackHead true).records
      simp [OfflineBuffer.ackHead, hrec, hnd]
    · exact hops
  · intro b2
    rfl

/-- Witness for claim C5: buffer [1, 2, 3] with capacity 50; record 1 is
acknowledged and removed; after offering 4 and a further acknowledged
drain step, record 1 never reappears. -/
theorem c5_acked_record_never_replayed_witness :
    ((OfflineBuffer.mk [1, 2, 3] 50).records = 1 :: [2, 3] ∧
     (1 : Nat) ∉ [2, 3] ∧
     BufOp.offer 1 ∉ [BufOp.offer 4, BufOp.ackHead true]) ∧
    ((1 : Nat) ∉ (((OfflineBuffer.mk [1, 2, 3] 50).ackHead true).runOps
        [BufOp.offer 4, BufOp.ackHead true]).drain ∧
     ∀ (b2 : OfflineBuffer Nat), b2.ackHead false = b2) :=
  ⟨⟨rfl, by decide, by decide⟩,
   c5_acked_record_never_replayed (OfflineBuffer.mk [1, 2, 3] 50) 1 [2, 3]
     [BufOp.offer 4, BufOp.ackHead true] rfl (by decide) (by decide)⟩

/-- Claim C4: classification is `Moving` exactly when the distance between
consecutive fixes reaches `MOVEMENT_THRESHOLD_M`, the sampling interval
becomes `MOVING_INTERVAL_MS` on `Moving` and `IDLE_INTERVAL_MS` otherwise;
in particular a 5 m displacement against the 10 m threshold classifies as
`Idle` with interval 60000 ms. -/
theorem c4_movement_classification (d : ℚ) :
    (classify d = Movement.moving ↔ MOVEMENT_THRESHOLD_M ≤ d) ∧
    (classify d = Movement.idle ↔ d < MOVEMENT_THRESHOLD_M) ∧
    intervalFor (classify d) =
      (if MOVEMENT_THRESHOLD_M ≤ d then MOVING_INTERVAL_MS else IDLE_INTERVAL_MS) ∧
    classify 5 = Movement.idle ∧ intervalFor (classify 5) = 60000 := by
  have h5 : classify 5 = Movement.idle := by
    rw [classify_eq_idle_iff]
    norm_num [MOVEMENT_THRESHOLD_M]
  refine ⟨classify_eq_moving_iff d, classify_eq_idle_iff d, ?_, h5, ?_⟩
  · unfold classify
    split
    · rfl
    · rfl
  · rw [h5]
    rfl

/-- Claim C6: starting from loop start (no attempt yet), over any sequence
of scheduler ticks the times of successive reconnection attempts are
separated by at least `RECONNECT_DELAY_MS`; reconnection is never attempted
more frequently. -/
theorem c6_reconnect_spacing (ticks : List (Bool × Nat)) :
    List.Chain' (fun a b => a + RECONNECT_DELAY_MS ≤ b)
      (attemptTimes (ReconnectState.mk none) ticks) := by
  have h := attemptTimes_chain ticks (ReconnectState.mk none)
  simpa [reconnectSeed] using h

/-- Claim C7: a heartbeat is emitted on a tick only if heartbeats are
enabled and at least `HEARTBEAT_INTERVAL_MS` has elapsed since the last
heartbeat (loop start for the first); with the flag unset no tick of any
run ever emits a heartbeat. -/
theorem c7_heartbeat_gating :
    (∀ (enabled : Bool) (s : HeartbeatState) (now : Nat),
      (heartbeatTick enabled s now).2 = true →
      enabled = true ∧ s.lastHeartbeat + HEARTBEAT_INTERVAL_MS ≤ now) ∧
    (∀ (s : HeartbeatState) (ts : List Nat), heartbeatTimes false s ts = []) := by
  constructor
  · intro enabled s now h
    by_cases hcond : enabled = true ∧ s.lastHeartbeat + HEARTBEAT_INTERVAL_MS ≤ now
    · exact hcond
    · simp [heartbeatTick, hcond] at h
  · intro s ts
    induction ts generalizing s with
    | nil => rfl
    | cons now rest ih =>
      simp [heartbeatTimes, heartbeatTick, ih]

/-- Witness for claim C7: at loop start 0 and tick time 60000 with
heartbeats enabled, a heartbeat is emitted and the gating conditions hold. -/
theorem c7_heartbeat_gating_witness :
    (heartbeatTick true (HeartbeatState.mk 0) 60000).2 = true ∧
    (true = true ∧
      (HeartbeatState.mk 0).lastHeartbeat + HEARTBEAT_INTERVAL_MS ≤ 60000) :=
  ⟨by decide, c7_heartbeat_gating.1 true (HeartbeatState.mk 0) 60000 (by decide)⟩

/-- Claim C8: with fallback enabled, after 3 consecutive send failures on
the primary bearer the 4th send call uses the fallback bearer (the first
three used the primary), and every send call performs exactly one
transmission attempt. -/
theorem c8_fallback_after_three_failures :
    sendBearers true (ArbiterState.mk 0) [false, false, false, true] =
      [Bearer.primary, Bearer.primary, Bearer.primary, Bearer.fallback] ∧
    (∀ (o : Bool),
      (send true (runSends true (ArbiterState.mk 0) [false, false, false]) o).2.bearerUsed =
        Bearer.fallback) ∧
    (∀ (e : Bool) (s : ArbiterState) (o : Bool),
      (send e s o).2.transmissions = 1) := by
  refine ⟨by decide, ?_, ?_⟩
  · intro o
    cases o <;> rfl
  · intro e s o
    cases o <;> rfl

/-- Claim C9: in both header variants every timing constant is strictly
positive, the moving interval (15000 ms) is strictly smaller than the idle
interval (60000 ms), and the two variants define identical values for
every operational parameter. -/
theorem c9_operational_params_consistent :
    0 < configHParams.moving_interval_ms ∧
    0 < configHParams.idle_interval_ms ∧
    0 < configHParams.heartbeat_interval_ms ∧
    0 < configHParams.reconnect_delay_ms ∧
    0 < configHParams.gps_timeout_ms ∧
    0 < configHParams.wifi_timeout_ms ∧
    0 < configHParams.http_timeout_ms ∧
    0 < configHParams.at_command_timeout_ms ∧
    configHParams.moving_interval_ms = 15000 ∧
    configHParams.idle_interval_ms = 60000 ∧
    configHParams.moving_interval_ms < configHParams.idle_interval_ms ∧
    0 < esp32ExampleParams.moving_interval_ms ∧
    esp32ExampleParams.moving_interval_ms < esp32ExampleParams.idle_interval_ms ∧
    configHParams = esp32ExampleParams := by
  refine ⟨by decide, by decide, by decide, by decide, by decide, by decide,
    by decide, by decide, by decide, by decide, by decide, by decide,
    by decide, by decide⟩

/-- Claim C10: only WIFI_SSID, SERVER_HOST, DEVICE_ID, DEVICE_TOKEN, APN
and (on ESP32) the three MQTT macros are checked by the validation block;
WIFI_PASS and PUBLIC_ORIGIN are never checked, so under the intended
string-equality reading a firmware leaving them at their placeholders
fires no error — although under conforming preprocessor semantics that
firmware, like every other, is rejected at the first string-comparing
check. -/
theorem c10_wifi_pass_public_origin_unchecked :
    "WIFI_PASS" ∉ checkedMacros true ∧
    "PUBLIC_ORIGIN" ∉ checkedMacros true ∧
    "WIFI_PASS" ∉ checkedMacros false ∧
    "PUBLIC_ORIGIN" ∉ checkedMacros false ∧
    (∀ (esp32 : Bool) (c : FirmwareConfig),
      (validationChecks esp32 c).map ValidationCheck.macroName = checkedMacros esp32) ∧
    intendedValidation true unsetPassOriginConfig = BuildResult.ok ∧
    runValidation true unsetPassOriginConfig =
      BuildResult.invalidDirective "WIFI_SSID" := by
  refine ⟨by decide, by decide, by decide, by decide, ?_, by decide, by decide⟩
  intro esp32 c
  cases esp32 <;> rfl
